import Mathlib

/-!
Shallow embedding of the response-synthesis engine of `app.py` (a
sentiment-aware mental-health support chatbot).

Modelling conventions:
- text is `List Char` (abbreviated `Str`); Python `str.lower` / `str.upper`
  are character-wise maps; Python substring containment (`a in b`) is
  `List.IsInfix`;
- classifier scores (Python floats compared only against the literal
  `0.7` and defaulted to `0.5`) are rationals;
- `dict.get(key, default)` on the classifier result dictionaries is
  `Option.getD` on an optional field;
- Python's builtin `hash` applied to a `str` is, by documented CPython
  semantics, salted with a per-process random seed (hash randomization,
  `PYTHONHASHSEED`): its value is a function of that seed as well as of the
  text.  It is therefore modelled as an explicit parameter `h : Str → Int`
  ranging over the possible per-process instantiations; everything the code
  computes from `hash(user_text)` is computed here from `h user_text`.
  `hzero` and `hone` below are two concrete such instantiations used in
  closed statements.

All functions are total Lean definitions, mirroring that the engine never
raises on any well-typed input.
-/

namespace App

abbrev Str : Type := List Char

def lowerStr (s : Str) : Str := s.map Char.toLower

def upperStr (s : Str) : Str := s.map Char.toUpper

/-- Fixed per-process instantiations of the builtin string hash, used in
closed statements. -/
def hzero : Str → Int := fun _ => 0

def hone : Str → Int := fun _ => 1

/-- The crisis lexicon of `detect_crisis` (app.py lines 36-48). -/
def crisis_terms : List Str :=
  ["suicide".data,
   "kill myself".data,
   "end my life".data,
   "can\x27t go on".data,
   "cant go on".data,
   "self harm".data,
   "self-harm".data,
   "hurt myself".data,
   "harm myself".data,
   "ending it".data,
   "no reason to live".data]

/-- Crisis-keyword detector (app.py lines 34-49): lowercase the text, then
test substring containment of each lexicon phrase. -/
def detect_crisis (text : Str) : Bool :=
  crisis_terms.any (fun term => decide (term <:+: lowerStr text))

def crisis_message : Str :=
  "I\x27m really sorry you\x27re feeling this way. Your life matters and you deserve support. If you\x27re in immediate danger, please call your local emergency number (e.g., 112/911/999).\n\nYou can reach a crisis line right now:\n- International: https://findahelpline.com/\n- India: AASRA +91-9820466726 | https://aasra.info/\n- US: 988 Suicide & Crisis Lifeline (call/text 988) | https://988lifeline.org/\n\nI\x27m here to listen. Would you like to tell me a little more about what\x27s on your mind?".data

def negative_strong_message : Str :=
  "That sounds really tough, and it\x27s completely okay to feel this way. You don\x27t have to handle everything at once. Maybe try a small grounding step: take 3 slow breaths (in 4s, hold 4s, out 6s). If you\x27d like, we can break the situation into smaller parts together. What part feels heaviest right now?".data

def negative_mild_message : Str :=
  "I hear some heaviness in what you shared. You\x27re not alone. What would feel most supportive for you right now—venting, problem-solving, or a simple check-in?".data

def positive_message : Str :=
  "I love the hopeful energy here. That\x27s a strength you can build on. What helped you get to this point today? Maybe we can note a small win to carry forward.".data

def neutral_message : Str :=
  "Thanks for sharing. I\x27m here with you. If you\x27d like, I can offer a gentle prompt: what\x27s one small action that could make the next hour a bit easier?".data

/-- Sentiment-level response builder (app.py lines 52-89). -/
def build_empathetic_response (label : Str) (score : ℚ) (user_text : Str)
    (crisis : Bool) : Str :=
  if crisis then
    crisis_message
  else if label = "NEGATIVE".data then
    if (7 / 10 : ℚ) ≤ score then negative_strong_message
    else negative_mild_message
  else if label = "POSITIVE".data then
    positive_message
  else
    neutral_message

def sadness_template_0 : Str :=
  "It sounds really heavy. It\x27s okay to feel sad. A tiny step like writing down one worry or taking a 2‑minute stretch can help. What feels smallest to try?".data

def sadness_template_1 : Str :=
  "I’m hearing a lot of weight in this. You deserve gentleness right now. Could a short break with some music or a warm drink help even 1%?".data

def anger_template_0 : Str :=
  "That anger makes sense if things feel unfair. Want to try a 10‑second pause—inhale 4, hold 4, exhale 6—then we can sort what’s in your control?".data

def anger_template_1 : Str :=
  "Your feelings are valid. We can channel this energy. Would listing the top 1–2 triggers help us plan a next step?".data

def fear_template_0 : Str :=
  "When worry spikes, your body is trying to protect you. Let’s ground: name 5 things you see, 4 you feel, 3 you hear. I’m with you.".data

def fear_template_1 : Str :=
  "Anxiety can feel loud. Let’s shrink the moment: what’s the next tiny action (30 seconds or less) you could take?".data

def disgust_template_0 : Str :=
  "Feeling turned off or disappointed can be protective. If you zoom out, is there a boundary you’d like to set to feel safer?".data

def disgust_template_1 : Str :=
  "It’s okay to step back from what doesn’t feel right. What would a kinder environment look like for you today?".data

def surprise_template_0 : Str :=
  "That’s a lot to take in at once. Want to unpack it together, one small piece at a time?".data

def surprise_template_1 : Str :=
  "Unexpected moments can shake us. What’s one thing you know for sure right now?".data

def neutral_template_0 : Str :=
  "Thanks for sharing. I’m here with you. What’s one small action that could make the next hour a bit easier?".data

def neutral_template_1 : Str :=
  "I’m listening. If you’d like, we can choose between venting, problem‑solving, or a simple check‑in.".data

def joy_template_0 : Str :=
  "I love the hopeful energy here. What helped you get to this point today? Let’s note a small win to carry forward.".data

def joy_template_1 : Str :=
  "That spark matters. What would help you keep this momentum for the next hour?".data

/-- The `templates` dictionary of `build_emotion_specific_response`
(app.py lines 100-129), as an association list in source order. -/
def emotion_templates : List (Str × List Str) :=
  [("sadness".data, [sadness_template_0, sadness_template_1]),
   ("anger".data, [anger_template_0, anger_template_1]),
   ("fear".data, [fear_template_0, fear_template_1]),
   ("disgust".data, [disgust_template_0, disgust_template_1]),
   ("surprise".data, [surprise_template_0, surprise_template_1]),
   ("neutral".data, [neutral_template_0, neutral_template_1]),
   ("joy".data, [joy_template_0, joy_template_1])]

/-- Dictionary lookup `templates[e]` as an optional value
(`e in templates` is `(templatesLookup e).isSome`). -/
def templatesLookup (emotion : Str) : Option (List Str) :=
  (emotion_templates.find? (fun p => p.1 == emotion)).map (fun p => p.2)

/-- App.py line 130: `key = emotion if emotion in templates else "neutral"`. -/
def template_key (emotion : Str) : Str :=
  if (templatesLookup emotion).isSome then emotion else "neutral".data

/-- Emotion-specific response builder (app.py lines 99-133); `h` is the
per-process instantiation of the builtin string hash. -/
def build_emotion_specific_response (h : Str → Int) (emotion : Str)
    (user_text : Str) : Str :=
  let choices := (templatesLookup (template_key emotion)).getD []
  choices.getD ((h user_text).natAbs % choices.length) []

/-- A raw classifier result dictionary: the `label` / `score` entries may
be missing, in which case the code's `dict.get` defaults apply. -/
structure ClassifierRaw where
  label : Option Str
  score : Option ℚ

/-- Emotion-label normalization of `classify_emotion` (app.py lines 92-96):
label defaults to "neutral" and is lowercased, score defaults to 0.5. -/
def classify_emotion (raw : ClassifierRaw) : Str × ℚ :=
  (lowerStr (raw.label.getD "neutral".data), raw.score.getD (1 / 2))

/-- The result dictionary assembled by `analyze_and_respond`
(app.py lines 154-161). -/
structure AnalyzeResult where
  label : Str
  score : ℚ
  emotion : Str
  emotion_score : ℚ
  crisis : Bool
  reply : Str
deriving DecidableEq

/-- The negative-emotion cluster `{"sadness", "anger", "fear", "disgust"}`
(app.py lines 147 and 221). -/
def negative_emotions : List Str :=
  ["sadness".data, "anger".data, "fear".data, "disgust".data]

/-- Orchestration (app.py lines 136-161): normalize the two classifier
results, compute the crisis flag, branch, and assemble the result. -/
def analyze_and_respond (h : Str → Int) (user_text : Str)
    (sraw eraw : ClassifierRaw) : AnalyzeResult :=
  let label := upperStr (sraw.label.getD "NEUTRAL".data)
  let score := sraw.score.getD (1 / 2)
  let crisis := detect_crisis user_text
  let emo := classify_emotion eraw
  let reply :=
    if crisis then
      build_empathetic_response label score user_text crisis
    else if label = "NEGATIVE".data ∨ emo.1 ∈ negative_emotions then
      build_emotion_specific_response h emo.1 user_text
    else if label = "POSITIVE".data ∨ emo.1 = "joy".data then
      build_emotion_specific_response h "joy".data user_text
    else
      build_emotion_specific_response h "neutral".data user_text
  ⟨label, score, emo.1, emo.2, crisis, reply⟩

/-- The coping-tips list of the UI block (app.py lines 222-227). -/
def tips : List Str :=
  ["Mini reset: inhale 4, hold 4, exhale 6.".data,
   "Micro‑action: sip water and roll your shoulders.".data,
   "Grounding: name 5 things you can see right now.".data,
   "30‑second pause: look out a window or step away from the screen.".data]

/-- Coping-tip selection of the UI block (app.py lines 221-230): a tip is
shown exactly when the result is non-crisis and negative (by sentiment
label or negative-cluster emotion); the tip is chosen by the same
hash-based selector over `tips`. -/
def tips_for (h : Str → Int) (user_input : Str) (label emo : Str)
    (crisis : Bool) : Option Str :=
  if crisis = false ∧ (label = "NEGATIVE".data ∨ emo ∈ negative_emotions) then
    some (tips.getD ((h user_input).natAbs % tips.length) [])
  else
    none

/-! Helper lemmas shared by the verification theorems below. -/

lemma getD_mem {α : Type} (d : α) :
    ∀ (l : List α) (i : ℕ), i < l.length → l.getD i d ∈ l
  | a :: t, 0, _ => List.mem_cons_self a t
  | a :: t, i + 1, hi =>
      List.mem_cons_of_mem a (getD_mem d t i (Nat.lt_of_succ_lt_succ hi))

lemma templatesLookup_length {e : Str} {l : List Str}
    (hl : templatesLookup e = some l) : l.length = 2 := by
  unfold templatesLookup at hl
  cases hf : emotion_templates.find? (fun p => p.1 == e) with
  | none => rw [hf] at hl; cases hl
  | some p =>
      rw [hf] at hl
      have hp := List.mem_of_find?_eq_some hf
      have h2 : ∀ q ∈ emotion_templates, q.2.length = 2 := by decide
      have := h2 p hp
      simp only [Option.map_some'] at hl
      cases hl
      exact this

lemma choices_length (e : Str) :
    ((templatesLookup (template_key e)).getD []).length = 2 := by
  unfold template_key
  cases ht : templatesLookup e with
  | none => simp only [ht, Option.isSome_none, Bool.false_eq_true, if_false]; decide
  | some l =>
      simp only [ht, Option.isSome_some, if_true, Option.getD_some]
      exact templatesLookup_length ht

lemma besr_mem (h : Str → Int) (e text : Str) :
    build_emotion_specific_response h e text
      ∈ (templatesLookup (template_key e)).getD [] := by
  unfold build_emotion_specific_response
  exact getD_mem _ _ _ (Nat.mod_lt _ (by rw [choices_length]; decide))

lemma besr_unknown (h : Str → Int) (e text : Str)
    (hn : templatesLookup e = none) :
    build_emotion_specific_response h e text
      ∈ [neutral_template_0, neutral_template_1] := by
  have hm := besr_mem h e text
  have hk : template_key e = "neutral".data := by
    simp [template_key, hn]
  rw [hk] at hm
  have hnl : templatesLookup "neutral".data
      = some [neutral_template_0, neutral_template_1] := by decide
  rw [hnl] at hm
  exact hm

lemma analyze_reply_crisis (h : Str → Int) (text : Str)
    (sraw eraw : ClassifierRaw) (hc : detect_crisis text = true) :
    (analyze_and_respond h text sraw eraw).reply = crisis_message := by
  simp [analyze_and_respond, hc, build_empathetic_response]

lemma analyze_reply_negative (h : Str → Int) (text : Str)
    (sraw eraw : ClassifierRaw) (hc : detect_crisis text = false)
    (hl : upperStr (sraw.label.getD "NEUTRAL".data) = "NEGATIVE".data) :
    (analyze_and_respond h text sraw eraw).reply
      = build_emotion_specific_response h
          (lowerStr (eraw.label.getD "neutral".data)) text := by
  simp [analyze_and_respond, hc, hl, classify_emotion]

/-! Claim theorems. -/

/-- C1: whenever the crisis detector fires on the input text, the engine's
reply is the fixed crisis-resources message, regardless of the sentiment
label, sentiment score and emotion result supplied alongside. -/
theorem crisis_overrides_all (h : Str → Int) (text : Str)
    (sraw eraw : ClassifierRaw) (hc : detect_crisis text = true) :
    (analyze_and_respond h text sraw eraw).reply = crisis_message :=
  analyze_reply_crisis h text sraw eraw hc

theorem crisis_overrides_all_witness :
    (analyze_and_respond hzero "I can\x27t go on anymore".data
        ⟨some "NEGATIVE".data, some (99 / 100)⟩
        ⟨some "sadness".data, some (8 / 10)⟩).reply = crisis_message :=
  crisis_overrides_all hzero "I can\x27t go on anymore".data
    ⟨some "NEGATIVE".data, some (99 / 100)⟩
    ⟨some "sadness".data, some (8 / 10)⟩ (by decide)

/-- C2: `detect_crisis` returns true exactly when the lowercased text
contains some phrase of the fixed crisis lexicon as a substring; in
particular it returns false on the empty and on whitespace-only text. -/
theorem detect_crisis_iff :
    (∀ text : Str,
      detect_crisis text = true ↔ ∃ term ∈ crisis_terms, term <:+: lowerStr text)
    ∧ detect_crisis [] = false
    ∧ detect_crisis "   ".data = false := by
  refine ⟨fun text => ?_, by decide, by decide⟩
  simp [detect_crisis, List.any_eq_true, decide_eq_true_eq]

theorem detect_crisis_iff_witness : detect_crisis "suicide".data = true :=
  (detect_crisis_iff.1 "suicide".data).mpr ⟨"suicide".data, by decide, by decide⟩

/-- C3 counterexample: at the spec's own instance (sentiment NEGATIVE with
score 0.8, emotion neutral, crisis false) the engine returns the neutral
emotion template, not the strong-negative template — `analyze_and_respond`
never reaches the score-based branch of `build_empathetic_response` when
the crisis flag is false. -/
theorem negative_strong_unreachable_cex :
    (analyze_and_respond hzero "I failed my exam".data
        ⟨some "NEGATIVE".data, some (8 / 10)⟩
        ⟨some "neutral".data, some (1 / 2)⟩).reply ≠ negative_strong_message
    ∧ (analyze_and_respond hzero "I failed my exam".data
        ⟨some "NEGATIVE".data, some (8 / 10)⟩
        ⟨some "neutral".data, some (1 / 2)⟩).reply = neutral_template_0 :=
  ⟨by decide, by decide⟩

/-- C3 amended: with crisis false and sentiment label NEGATIVE the engine
replies with the emotion-specific template for the normalized emotion
label, regardless of the sentiment score; the strong-negative template is
produced only by direct calls to `build_empathetic_response` with crisis
false and score ≥ 0.7, calls that `analyze_and_respond` never makes. -/
theorem negative_sentiment_emotion_template (h : Str → Int) (text : Str)
    (sraw eraw : ClassifierRaw) (hc : detect_crisis text = false)
    (hl : upperStr (sraw.label.getD "NEUTRAL".data) = "NEGATIVE".data) :
    (analyze_and_respond h text sraw eraw).reply
      = build_emotion_specific_response h
          (lowerStr (eraw.label.getD "neutral".data)) text
    ∧ ∀ score : ℚ, (7 / 10 : ℚ) ≤ score →
        build_empathetic_response "NEGATIVE".data score text false
          = negative_strong_message := by
  refine ⟨analyze_reply_negative h text sraw eraw hc hl, fun score hs => ?_⟩
  simp [build_empathetic_response, hs]

theorem negative_sentiment_emotion_template_witness :
    (analyze_and_respond hzero "I failed my exam".data
        ⟨some "NEGATIVE".data, some (8 / 10)⟩
        ⟨some "neutral".data, some (1 / 2)⟩).reply
      = build_emotion_specific_response hzero "neutral".data
          "I failed my exam".data :=
  (negative_sentiment_emotion_template hzero "I failed my exam".data
    ⟨some "NEGATIVE".data, some (8 / 10)⟩ ⟨some "neutral".data, some (1 / 2)⟩
    (by decide) (by decide)).1

/-- C4 counterexample: with crisis false, sentiment NEGATIVE and emotion
label "surprise", the engine selects a surprise-specific template, not the
generic mild-negative/neutral one — "surprise" and "joy" have their own
entries in the template bank, so only labels outside the bank fall back
to neutral. -/
theorem surprise_template_selected_cex :
    (analyze_and_respond hzero "That was unexpected news".data
        ⟨some "NEGATIVE".data, some (2 / 10)⟩
        ⟨some "surprise".data, some (9 / 10)⟩).reply = surprise_template_0
    ∧ surprise_template_0 ≠ neutral_template_0
    ∧ surprise_template_0 ≠ neutral_template_1
    ∧ surprise_template_0 ≠ negative_mild_message :=
  ⟨by decide, by decide, by decide, by decide⟩

/-- C4 amended: with crisis false and sentiment label NEGATIVE, an emotion
label with no entry in the template bank falls back to the neutral
templates, while the labels "surprise" and "joy" (which have entries)
select their own emotion-specific templates. -/
theorem negative_unknown_emotion_fallback (h : Str → Int) (text : Str)
    (sraw eraw : ClassifierRaw) (hc : detect_crisis text = false)
    (hl : upperStr (sraw.label.getD "NEUTRAL".data) = "NEGATIVE".data) :
    (templatesLookup (lowerStr (eraw.label.getD "neutral".data)) = none →
      (analyze_and_respond h text sraw eraw).reply
        ∈ [neutral_template_0, neutral_template_1])
    ∧ (lowerStr (eraw.label.getD "neutral".data) = "surprise".data →
      (analyze_and_respond h text sraw eraw).reply
        ∈ [surprise_template_0, surprise_template_1])
    ∧ (lowerStr (eraw.label.getD "neutral".data) = "joy".data →
      (analyze_and_respond h text sraw eraw).reply
        ∈ [joy_template_0, joy_template_1]) := by
  rw [analyze_reply_negative h text sraw eraw hc hl]
  refine ⟨fun hn => besr_unknown h _ text hn, fun hs => ?_, fun hj => ?_⟩
  · rw [hs]
    have hm := besr_mem h "surprise".data text
    have hk : template_key "surprise".data = "surprise".data := by decide
    rw [hk] at hm
    have hsl : templatesLookup "surprise".data
        = some [surprise_template_0, surprise_template_1] := by decide
    rw [hsl] at hm
    exact hm
  · rw [hj]
    have hm := besr_mem h "joy".data text
    have hk : template_key "joy".data = "joy".data := by decide
    rw [hk] at hm
    have hjl : templatesLookup "joy".data
        = some [joy_template_0, joy_template_1] := by decide
    rw [hjl] at hm
    exact hm

theorem negative_unknown_emotion_fallback_witness :
    (analyze_and_respond hzero "That was unexpected news".data
        ⟨some "NEGATIVE".data, some (2 / 10)⟩
        ⟨some "surprise".data, some (9 / 10)⟩).reply
      ∈ [surprise_template_0, surprise_template_1] :=
  (negative_unknown_emotion_fallback hzero "That was unexpected news".data
    ⟨some "NEGATIVE".data, some (2 / 10)⟩ ⟨some "surprise".data, some (9 / 10)⟩
    (by decide) (by decide)).2.1 (by decide)

/-- C5 counterexample: with identical text and identical classifier
results, two different per-process instantiations of the builtin string
hash select different reply variants — the reply is not invariant under
the hash instantiation, so determinism across process restarts fails
(CPython salts `str` hashes per process). -/
theorem hash_instantiation_cex :
    (analyze_and_respond hzero "I feel sad today".data
        ⟨some "NEGATIVE".data, some (9 / 10)⟩
        ⟨some "sadness".data, some (8 / 10)⟩).reply
      ≠ (analyze_and_respond hone "I feel sad today".data
        ⟨some "NEGATIVE".data, some (9 / 10)⟩
        ⟨some "sadness".data, some (8 / 10)⟩).reply := by decide

/-- C5 amended: within one process — that is, for any two hash
instantiations agreeing on the input text, in particular for one fixed
instantiation — identical arguments yield identical results: the whole
synthesis result and the coping tip depend on the hash only through its
value on the text. -/
theorem synthesis_deterministic_given_hash (h₁ h₂ : Str → Int) (text : Str)
    (sraw eraw : ClassifierRaw) (label emo : Str) (crisis : Bool)
    (hh : h₁ text = h₂ text) :
    analyze_and_respond h₁ text sraw eraw = analyze_and_respond h₂ text sraw eraw
    ∧ tips_for h₁ text label emo crisis = tips_for h₂ text label emo crisis := by
  constructor
  · simp [analyze_and_respond, build_emotion_specific_response, hh]
  · simp [tips_for, hh]

theorem synthesis_deterministic_given_hash_witness :
    analyze_and_respond hzero "I feel sad today".data
        ⟨some "NEGATIVE".data, some (9 / 10)⟩
        ⟨some "sadness".data, some (8 / 10)⟩
      = analyze_and_respond (fun _ => 0) "I feel sad today".data
        ⟨some "NEGATIVE".data, some (9 / 10)⟩
        ⟨some "sadness".data, some (8 / 10)⟩
    ∧ tips_for hzero "I feel sad today".data "NEGATIVE".data "sadness".data false
      = tips_for (fun _ => 0) "I feel sad today".data "NEGATIVE".data
          "sadness".data false :=
  synthesis_deterministic_given_hash hzero (fun _ => 0) "I feel sad today".data
    ⟨some "NEGATIVE".data, some (9 / 10)⟩ ⟨some "sadness".data, some (8 / 10)⟩
    "NEGATIVE".data "sadness".data false rfl

/-- C6: the crisis reply always contains the emergency-number reference
"112/911/999", for every sentiment label and score passed alongside
crisis = true, and hence for every engine result on crisis-flagged text. -/
theorem crisis_reply_contains_emergency (label : Str) (score : ℚ)
    (user_text : Str) (h : Str → Int) (text : Str) (sraw eraw : ClassifierRaw) :
    "112/911/999".data <:+: build_empathetic_response label score user_text true
    ∧ (detect_crisis text = true →
        "112/911/999".data <:+: (analyze_and_respond h text sraw eraw).reply) := by
  have hinf : "112/911/999".data <:+: crisis_message :=
    ⟨"I\x27m really sorry you\x27re feeling this way. Your life matters and you deserve support. If you\x27re in immediate danger, please call your local emergency number (e.g., ".data,
     ").\n\nYou can reach a crisis line right now:\n- International: https://findahelpline.com/\n- India: AASRA +91-9820466726 | https://aasra.info/\n- US: 988 Suicide & Crisis Lifeline (call/text 988) | https://988lifeline.org/\n\nI\x27m here to listen. Would you like to tell me a little more about what\x27s on your mind?".data,
     rfl⟩
  exact ⟨hinf, fun hc => by
    rw [analyze_reply_crisis h text sraw eraw hc]; exact hinf⟩

theorem crisis_reply_contains_emergency_witness :
    "112/911/999".data <:+:
      (analyze_and_respond hzero "there is no reason to live".data
        ⟨some "POSITIVE".data, some (99 / 100)⟩
        ⟨some "joy".data, some (9 / 10)⟩).reply :=
  (crisis_reply_contains_emergency "POSITIVE".data (99 / 100) [] hzero
    "there is no reason to live".data
    ⟨some "POSITIVE".data, some (99 / 100)⟩
    ⟨some "joy".data, some (9 / 10)⟩).2 (by decide)

/-- C7: a coping tip is produced exactly when the engine's result is
non-crisis and negative (NEGATIVE sentiment label or negative-cluster
emotion); any produced tip is an element of the fixed tips list; and in
the positive end-to-end scenario ("I got the job!", POSITIVE/joy) the tip
is absent. -/
theorem tip_iff_negative_noncrisis (h : Str → Int) (text : Str)
    (sraw eraw : ClassifierRaw) :
    ((tips_for h text (analyze_and_respond h text sraw eraw).label
        (analyze_and_respond h text sraw eraw).emotion
        (analyze_and_respond h text sraw eraw).crisis).isSome = true ↔
      (analyze_and_respond h text sraw eraw).crisis = false ∧
        ((analyze_and_respond h text sraw eraw).label = "NEGATIVE".data ∨
          (analyze_and_respond h text sraw eraw).emotion ∈ negative_emotions))
    ∧ (∀ t : Str,
        tips_for h text (analyze_and_respond h text sraw eraw).label
            (analyze_and_respond h text sraw eraw).emotion
            (analyze_and_respond h text sraw eraw).crisis = some t →
          t ∈ tips)
    ∧ tips_for hzero "I got the job!".data
        (analyze_and_respond hzero "I got the job!".data
          ⟨some "POSITIVE".data, some (95 / 100)⟩
          ⟨some "joy".data, some (9 / 10)⟩).label
        (analyze_and_respond hzero "I got the job!".data
          ⟨some "POSITIVE".data, some (95 / 100)⟩
          ⟨some "joy".data, some (9 / 10)⟩).emotion
        (analyze_and_respond hzero "I got the job!".data
          ⟨some "POSITIVE".data, some (95 / 100)⟩
          ⟨some "joy".data, some (9 / 10)⟩).crisis = none := by
  refine ⟨?_, fun t ht => ?_, by decide⟩
  · unfold tips_for
    split
    · next hcond => simpa using hcond
    · next hcond => simpa using hcond
  · unfold tips_for at ht
    split at ht
    · cases ht
      exact getD_mem _ _ _ (Nat.mod_lt _ (by decide))
    · cases ht

theorem tip_iff_negative_noncrisis_witness :
    (tips_for hzero "I feel overwhelmed".data
        (analyze_and_respond hzero "I feel overwhelmed".data
          ⟨some "NEGATIVE".data, some (9 / 10)⟩
          ⟨some "sadness".data, some (8 / 10)⟩).label
        (analyze_and_respond hzero "I feel overwhelmed".data
          ⟨some "NEGATIVE".data, some (9 / 10)⟩
          ⟨some "sadness".data, some (8 / 10)⟩).emotion
        (analyze_and_respond hzero "I feel overwhelmed".data
          ⟨some "NEGATIVE".data, some (9 / 10)⟩
          ⟨some "sadness".data, some (8 / 10)⟩).crisis).isSome = true :=
  (tip_iff_negative_noncrisis hzero "I feel overwhelmed".data
    ⟨some "NEGATIVE".data, some (9 / 10)⟩
    ⟨some "sadness".data, some (8 / 10)⟩).1.mpr (by decide)

/-- C8: malformed classifier input is absorbed by defaulting, never by
failure (every function here is total): a missing sentiment label defaults
to NEUTRAL, missing scores default to 0.5, a missing emotion label
defaults to neutral, an emotion label unknown to the template bank
degrades to the neutral templates, and an unknown sentiment label behaves
exactly like the label NEUTRAL. -/
theorem malformed_inputs_defaulted :
    (∀ (h : Str → Int) (text : Str) (sscore : Option ℚ) (eraw : ClassifierRaw),
      (analyze_and_respond h text ⟨none, sscore⟩ eraw).label = "NEUTRAL".data)
    ∧ (∀ (h : Str → Int) (text : Str) (slabel : Option Str)
        (eraw : ClassifierRaw),
      (analyze_and_respond h text ⟨slabel, none⟩ eraw).score = 1 / 2)
    ∧ (∀ (h : Str → Int) (text : Str) (sraw : ClassifierRaw)
        (escore : Option ℚ),
      (analyze_and_respond h text sraw ⟨none, escore⟩).emotion = "neutral".data)
    ∧ (∀ (h : Str → Int) (text : Str) (sraw : ClassifierRaw)
        (elabel : Option Str),
      (analyze_and_respond h text sraw ⟨elabel, none⟩).emotion_score = 1 / 2)
    ∧ (∀ (h : Str → Int) (e text : Str), templatesLookup e = none →
      build_emotion_specific_response h e text
        ∈ [neutral_template_0, neutral_template_1])
    ∧ ∀ (h : Str → Int) (text : Str) (slabel : Str) (sscore : Option ℚ)
        (eraw : ClassifierRaw),
      upperStr slabel ≠ "NEGATIVE".data → upperStr slabel ≠ "POSITIVE".data →
      (analyze_and_respond h text ⟨some slabel, sscore⟩ eraw).reply
        = (analyze_and_respond h text ⟨some "NEUTRAL".data, sscore⟩ eraw).reply := by
  refine ⟨fun h text sscore eraw => rfl, fun h text slabel eraw => rfl,
    fun h text sraw escore => rfl, fun h text sraw elabel => rfl,
    fun h e text hn => besr_unknown h e text hn,
    fun h text slabel sscore eraw hneg hpos => ?_⟩
  have hn1 : ¬ (upperStr "NEUTRAL".data = "NEGATIVE".data) := by decide
  have hn2 : ¬ (upperStr "NEUTRAL".data = "POSITIVE".data) := by decide
  cases hc : detect_crisis text with
  | true => simp [analyze_and_respond, hc, build_empathetic_response]
  | false => simp [analyze_and_respond, hc, hneg, hpos, hn1, hn2]

theorem malformed_inputs_defaulted_witness :
    (analyze_and_respond hzero "Today was a day".data
        ⟨some "MIXED".data, some (1 / 2)⟩
        ⟨some "neutral".data, some (1 / 2)⟩).reply
      = (analyze_and_respond hzero "Today was a day".data
        ⟨some "NEUTRAL".data, some (1 / 2)⟩
        ⟨some "neutral".data, some (1 / 2)⟩).reply :=
  malformed_inputs_defaulted.2.2.2.2.2 hzero "Today was a day".data
    "MIXED".data (some (1 / 2)) ⟨some "neutral".data, some (1 / 2)⟩
    (by decide) (by decide)

/-- C9: template selection is safe and in range: every template list of
the bank and the tips list are non-empty, the selection index is always
below the candidate-list length, and the emotion-specific reply is always
an element of the resolved candidate list. -/
theorem selection_safe :
    (∀ p ∈ emotion_templates, 1 ≤ p.2.length)
    ∧ 1 ≤ tips.length
    ∧ (∀ (h : Str → Int) (e text : Str),
        (h text).natAbs % ((templatesLookup (template_key e)).getD []).length
          < ((templatesLookup (template_key e)).getD []).length
        ∧ build_emotion_specific_response h e text
            ∈ (templatesLookup (template_key e)).getD [])
    ∧ ∀ (h : Str → Int) (text : Str),
        (h text).natAbs % tips.length < tips.length := by
  refine ⟨by decide, by decide,
    fun h e text => ⟨Nat.mod_lt _ (by rw [choices_length]; decide),
      besr_mem h e text⟩,
    fun h text => Nat.mod_lt _ (by decide)⟩

theorem selection_safe_witness :
    1 ≤ ([sadness_template_0, sadness_template_1] : List Str).length :=
  selection_safe.1 ("sadness".data, [sadness_template_0, sadness_template_1])
    (by decide)

/-- C10: the reply is independent of the sentiment score: for every text,
sentiment label, emotion result and any two (possibly missing) scores,
the engine returns the same reply string — the score is only carried
through into the result for display. -/
theorem reply_score_independent (h : Str → Int) (text : Str)
    (slabel : Option Str) (s₁ s₂ : Option ℚ) (eraw : ClassifierRaw) :
    (analyze_and_respond h text ⟨slabel, s₁⟩ eraw).reply
      = (analyze_and_respond h text ⟨slabel, s₂⟩ eraw).reply := by
  cases hc : detect_crisis text with
  | true => simp [analyze_and_respond, hc, build_empathetic_response]
  | false => simp [analyze_and_respond, hc]

end App
